import Mathlib

/-!
Verification of src/HSIView/MatHelper.c (the MAT5 container reader/writer).

Shallow embedding conventions:
* C `size_t` values are `Nat` with explicit bounds against `SIZE_MAX = 2^64 - 1`
  (LP64 model); wrap-around of C unsigned arithmetic is written `% 2^64` where
  the source can actually wrap.
* Byte streams are `List Nat` (each entry a byte value; reads mask with `% 256`
  exactly as the C reads `uint8_t` cells).
* Pointer views into the stream become list slices (`drop`/`take`).
* The zlib inflate engine is an oracle parameter
  `inflate : List Nat → Option (List Nat)`; the wrapper `decompress_zlib`
  keeps the source's own size checks around it.
* File I/O: an input file is `Option (List Nat)` (`none` = the open/stat/read
  failed), writers return the emitted byte list.
* `malloc`/`realloc` are assumed to succeed (allocation failure is one more
  `false` path in the C; no claim depends on it).
-/

/-- Model of `SIZE_MAX` for the LP64 model used throughout MatHelper.c. -/
def SIZE_MAX : Nat := 2 ^ 64 - 1

/-- Model of `UINT_MAX` (the 32-bit cap the zlib wrapper checks `input_size` against). -/
def UINT_MAX : Nat := 2 ^ 32 - 1

/-- Model of `UINT32_MAX`. -/
def UINT32_MAX : Nat := 2 ^ 32 - 1

/-- Model of `INT32_MAX`. -/
def INT32_MAX : Nat := 2 ^ 31 - 1

/-- Model of `INT_MAX` (32-bit `int`). -/
def INT_MAX : Nat := 2 ^ 31 - 1

/-- The public element-type enumeration `MatDataType` from MatHelper.h. -/
inductive MatDataType where
  | float64
  | float32
  | uint8
  | uint16
  | int8
  | int16
  deriving DecidableEq, Repr, Inhabited

/-- Model of `bswap16` from MatHelper.c: byte swap of a 16-bit value. -/
def bswap16 (v : Nat) : Nat := (v % 256) * 256 + (v / 256) % 256

/-- Model of `bswap32` from MatHelper.c: byte swap of a 32-bit value. -/
def bswap32 (v : Nat) : Nat :=
  (v % 256) * 2 ^ 24 + (v / 2 ^ 8 % 256) * 2 ^ 16 +
    (v / 2 ^ 16 % 256) * 2 ^ 8 + v / 2 ^ 24 % 256

/-- Model of `bswap64` from MatHelper.c: byte swap of a 64-bit value. -/
def bswap64 (v : Nat) : Nat :=
  (v % 256) * 2 ^ 56 + (v / 2 ^ 8 % 256) * 2 ^ 48 +
    (v / 2 ^ 16 % 256) * 2 ^ 40 + (v / 2 ^ 24 % 256) * 2 ^ 32 +
    (v / 2 ^ 32 % 256) * 2 ^ 24 + (v / 2 ^ 40 % 256) * 2 ^ 16 +
    (v / 2 ^ 48 % 256) * 2 ^ 8 + v / 2 ^ 56 % 256

/-- One byte of a stream (C `uint8_t` cell): masked to `% 256`. -/
def byteAt (bytes : List Nat) (i : Nat) : Nat := bytes.getD i 0 % 256

/-- Model of `read_u32` from MatHelper.c, reading at offset `off` of `bytes`
(the C call sites pass a pointer `bytes + off`). -/
def read_u32 (bytes : List Nat) (off : Nat) (little : Bool) : Nat :=
  let v := byteAt bytes off + byteAt bytes (off + 1) * 2 ^ 8 +
    byteAt bytes (off + 2) * 2 ^ 16 + byteAt bytes (off + 3) * 2 ^ 24
  if little then v else bswap32 v

/-- Model of `read_u64` from MatHelper.c, reading at offset `off` of `bytes`. -/
def read_u64 (bytes : List Nat) (off : Nat) (little : Bool) : Nat :=
  let v := byteAt bytes off + byteAt bytes (off + 1) * 2 ^ 8 +
    byteAt bytes (off + 2) * 2 ^ 16 + byteAt bytes (off + 3) * 2 ^ 24 +
    byteAt bytes (off + 4) * 2 ^ 32 + byteAt bytes (off + 5) * 2 ^ 40 +
    byteAt bytes (off + 6) * 2 ^ 48 + byteAt bytes (off + 7) * 2 ^ 56
  if little then v else bswap64 v

/-- Model of `checked_mul_size` from MatHelper.c (`none` = the C returns false). -/
def checked_mul_size (a b : Nat) : Option Nat :=
  if a = 0 ∨ b = 0 then some 0
  else if a > SIZE_MAX / b then none
  else some (a * b)

/-- Model of `checked_add_size` from MatHelper.c. -/
def checked_add_size (a b : Nat) : Option Nat :=
  if a > SIZE_MAX - b then none else some (a + b)

/-- The loop body of `count_elements`: multiply the accumulator by each
dimension, rejecting zero dimensions and overflow. -/
def count_go : List Nat → Nat → Option Nat
  | [], acc => some acc
  | d :: rest, acc =>
    if d = 0 then none
    else
      match checked_mul_size acc d with
      | none => none
      | some t => count_go rest t

/-- Model of `count_elements` from MatHelper.c: product of the first `rank` entries of
`dims`, failing on `rank = 0`, a zero dimension, or overflow.  (For
`rank > 3` the C call sites read past the 3-entry `dims` array — undefined
behaviour; the embedding reads the mathematically parsed dims vector.) -/
def count_elements (dims : List Nat) (rank : Nat) : Option Nat :=
  if rank = 0 then none else count_go (dims.take rank) 1

/-- Model of `aligned8` from MatHelper.c: round up to a multiple of 8, saturating to
`SIZE_MAX` on overflow. -/
def aligned8 (v : Nat) : Nat :=
  if v > SIZE_MAX - 7 then SIZE_MAX else (v + 7) / 8 * 8

/-- Model of `is_supported_numeric_class` from MatHelper.c. -/
def is_supported_numeric_class (c : Nat) : Bool :=
  c = 6 ∨ c = 7 ∨ c = 9 ∨ c = 11 ∨ c = 8 ∨ c = 10

/-- Model of `map_numeric_mi_type` from MatHelper.c: container data-type code to
(in-memory type, byte width). -/
def map_numeric_mi_type (t : Nat) : Option (MatDataType × Nat) :=
  if t = 9 then some (.float64, 8)
  else if t = 7 then some (.float32, 4)
  else if t = 2 then some (.uint8, 1)
  else if t = 4 then some (.uint16, 2)
  else if t = 1 then some (.int8, 1)
  else if t = 3 then some (.int16, 2)
  else none

/-- Model of `is_name_type` from MatHelper.c. -/
def is_name_type (t : Nat) : Bool :=
  t = 1 ∨ t = 2 ∨ t = 16 ∨ t = 17 ∨ t = 18

/-- The byte reader `MatReader` from MatHelper.c. -/
structure MatReader where
  data : List Nat
  size : Nat
  pos : Nat
  little : Bool
  deriving Repr

/-- A decoded element `MatElement` from MatHelper.c (`payload` is the
zero-copy view into the stream). -/
structure MatElement where
  type : Nat
  num_bytes : Nat
  payload : List Nat
  deriving DecidableEq, Repr

/-- Model of `read_element` from MatHelper.c: decode one tagged element and return it
with the advanced cursor (`none` = the C returns false). -/
def read_element (r : MatReader) : Option (MatElement × Nat) :=
  if r.pos > r.size ∨ r.size - r.pos < 8 then none
  else
    let word0 := read_u32 r.data r.pos r.little
    let word1 := read_u32 r.data (r.pos + 4) r.little
    if word0 / 2 ^ 16 ≠ 0 then
      let t := word0 % 2 ^ 16
      let nb := word0 / 2 ^ 16 % 2 ^ 16
      if nb > 4 then none
      else some (⟨t, nb, (r.data.drop (r.pos + 4)).take 4⟩, r.pos + 8)
    else
      match checked_add_size r.pos 8 with
      | none => none
      | some payloadPos =>
        if payloadPos > r.size ∨ word1 > r.size - payloadPos then none
        else
          let payloadEnd := payloadPos + word1
          let padded := aligned8 word1
          if padded = SIZE_MAX then none
          else
            match checked_add_size payloadPos padded with
            | none => none
            | some np =>
              let nextPos := if np > r.size then payloadEnd else np
              some (⟨word0, word1, (r.data.drop payloadPos).take word1⟩, nextPos)

/-- The per-value validity check inside `parse_dimensions_element`'s loop:
type code 5 (`miINT32`) reads a signed 32-bit value that must be positive,
12 (`miINT64`) a signed 64-bit value that must be positive, 6/13 unsigned
values that must be nonzero.  (`raw_value > SIZE_MAX` in the C is always
false on LP64.) -/
def dim_value_ok (t v : Nat) : Bool :=
  if t = 5 then 0 < v ∧ v < 2 ^ 31
  else if t = 12 then 0 < v ∧ v < 2 ^ 63
  else v ≠ 0

/-- The value-reading loop of `parse_dimensions_element`: read `count` more
dimension values starting at index `i`, each `es` bytes wide. -/
def read_dims_from (payload : List Nat) (little : Bool) (t es : Nat) :
    Nat → Nat → Option (List Nat)
  | 0, _ => some []
  | Nat.succ n, i =>
    let raw := if es = 4 then read_u32 payload (i * 4) little
               else read_u64 payload (i * 8) little
    if dim_value_ok t raw then
      (read_dims_from payload little t es n (i + 1)).map (raw :: ·)
    else none

/-- Model of `parse_dimensions_element` from MatHelper.c.  Returns the full parsed
dims vector together with the rank (= its length).  The C stores only the
first 3 values in its fixed `dims[3]` array; the embedding keeps the whole
vector (see `count_elements`). -/
def parse_dimensions_element (e : MatElement) (little : Bool) :
    Option (List Nat × Nat) :=
  let es : Nat :=
    if e.type = 5 ∨ e.type = 6 then 4
    else if e.type = 12 ∨ e.type = 13 then 8
    else 0
  if es = 0 then none
  else if e.num_bytes = 0 ∨ e.num_bytes % es ≠ 0 then none
  else
    let rank := e.num_bytes / es
    if rank = 0 ∨ rank > 16 then none
    else
      match read_dims_from e.payload little e.type es rank 0 with
      | none => none
      | some ds => some (ds, rank)

/-- Model of `copy_name_from_element` from MatHelper.c, as the effective C string the
copy produces: at most 255 payload bytes, cut at the first NUL (consumers
read the buffer through `strcmp`/`strncpy`/`name[0]`). -/
def copy_name_from_element (e : MatElement) : List Nat :=
  ((e.payload.take (min e.num_bytes 255)).map (· % 256)).takeWhile (· ≠ 0)

/-- The parser-internal `ParsedMatrix` view from MatHelper.c.  `dims` is the
full parsed dims vector (the C keeps `dims[3]` plus `rank`; `[1, 1, 1]`
before any dimensions sub-element is parsed). -/
structure ParsedMatrix where
  supported : Bool
  name : List Nat
  dims : List Nat
  rank : Nat
  data_type : MatDataType
  real_data : List Nat
  real_data_bytes : Nat
  element_size : Nat
  deriving DecidableEq, Repr

/-- The C 3-slot dims array entry `dims[i]` of a parsed matrix (slots beyond
the parsed rank keep their initial value 1). -/
def ParsedMatrix.dim (m : ParsedMatrix) (i : Nat) : Nat := m.dims.getD i 1

/-- The zero-initialised `ParsedMatrix` at the top of `parse_matrix_payload`
(`memset` to 0, then `supported = false`, `dims = {1,1,1}`, `rank = 0`). -/
def init_parsed_matrix : ParsedMatrix :=
  ⟨false, [], [1, 1, 1], 0, .float64, [], 0, 0⟩

/-- The local walk state of `parse_matrix_payload`: the four seen-flags plus
the matrix view under construction. -/
structure PState where
  has_flags : Bool
  has_dims : Bool
  has_name : Bool
  has_real_data : Bool
  m : ParsedMatrix
  deriving DecidableEq, Repr

/-- The loop body of `parse_matrix_payload`: dispatch one sub-element. -/
def parse_step (little : Bool) (st : PState) (e : MatElement) : PState :=
  if st.has_flags = false ∧ e.type = 6 ∧ e.num_bytes ≥ 8 then
    let flags0 := read_u32 e.payload 0 little
    let classType := flags0 % 256
    let isComplex := flags0 / 2 ^ 11 % 2 = 1
    { st with has_flags := true,
              m := { st.m with
                     supported := ¬isComplex ∧ is_supported_numeric_class classType } }
  else if st.has_dims = false ∧
      (e.type = 5 ∨ e.type = 6 ∨ e.type = 12 ∨ e.type = 13) then
    match parse_dimensions_element e little with
    | some (ds, rk) =>
      { st with has_dims := true, m := { st.m with dims := ds, rank := rk } }
    | none =>
      { st with has_dims := true, m := { st.m with supported := false, rank := 0 } }
  else if st.has_name = false ∧ is_name_type e.type then
    { st with has_name := true, m := { st.m with name := copy_name_from_element e } }
  else if st.has_real_data = false ∧ st.m.supported = true ∧ st.has_flags = true then
    match map_numeric_mi_type e.type with
    | some (dt, es) =>
      { st with has_real_data := true,
                m := { st.m with
                       data_type := dt, element_size := es,
                       real_data := e.payload, real_data_bytes := e.num_bytes } }
    | none => st
  else st

/-- The post-walk checks of `parse_matrix_payload` (lines 499-529): demand
flags and dims, default the name, demand a supported class and real data,
and verify `product(dims) * element_size == real_data_bytes`. -/
def finalize_matrix (st : PState) : ParsedMatrix :=
  if st.has_flags = false ∨ st.has_dims = false then
    { st.m with supported := false }
  else
    let m := { st.m with name := if st.has_name then st.m.name else [] }
    if m.supported = false ∨ st.has_real_data = false then
      { m with supported := false }
    else
      match count_elements m.dims m.rank with
      | none => { m with supported := false }
      | some cnt =>
        match checked_mul_size cnt m.element_size with
        | none => { m with supported := false }
        | some expected =>
          if expected ≠ m.real_data_bytes then { m with supported := false } else m

/-- The sub-element walk of `parse_matrix_payload` (`none` = the C returns
false, a hard parse failure). -/
def parse_loop (little : Bool) :
    Nat → List Nat → Nat → Nat → PState → Option PState
  | 0, _, _, _, _ => none
  | Nat.succ fuel, data, size, pos, st =>
    if pos + 8 ≤ size then
      match read_element ⟨data, size, pos, little⟩ with
      | none => none
      | some (e, pos') => parse_loop little fuel data size pos' (parse_step little st e)
    else some st

/-- Model of `parse_matrix_payload` from MatHelper.c.  The walk advances the cursor by
at least 8 per iteration, so `size / 8 + 1` steps of fuel are never
exhausted: the definition computes exactly the C loop. -/
def parse_matrix_payload (payload : List Nat) (size : Nat) (little : Bool) :
    Option ParsedMatrix :=
  (parse_loop little (size / 8 + 1) payload size 0
      ⟨false, false, false, false, init_parsed_matrix⟩).map finalize_matrix

/-- Model of `decompress_zlib` from MatHelper.c, with the inflate engine abstracted as
the oracle `inflate`: the wrapper's own checks (`input == NULL`/`size == 0`/
`size > UINT_MAX`) are kept; a `none` from the oracle is a corrupt stream,
an allocation failure, or a non-`Z_STREAM_END` finish. -/
def decompress_zlib (inflate : List Nat → Option (List Nat))
    (input : List Nat) (input_size : Nat) : Option (List Nat) :=
  if input_size = 0 ∨ input_size > UINT_MAX then none
  else inflate (input.take input_size)

/-- The `while` loop of `scan_elements` from MatHelper.c, with
* `visitor` the matrix-visitor callback (returns (ok, new context, stop)),
* the result triple (scan ok, final context, stop-flag propagated).
One unit of `fuel` is spent per decoded element and per compressed-stream
recursion; exhausted fuel ends the scan gracefully (the C loop and its
recursion are unbounded; every claim below quantifies over `fuel`). -/
def scan_loop {σ : Type} (inflate : List Nat → Option (List Nat))
    (visitor : ParsedMatrix → Bool → σ → Bool × σ × Bool) :
    Nat → List Nat → Nat → Nat → Bool → σ → Bool × σ × Bool
  | 0, _, _, _, _, s => (true, s, false)
  | Nat.succ fuel, data, size, pos, little, s =>
    if pos + 8 ≤ size then
      match read_element ⟨data, size, pos, little⟩ with
      | none => (true, s, false)
      | some (e, pos') =>
        if e.type = 14 then
          match parse_matrix_payload e.payload e.num_bytes little with
          | none => scan_loop inflate visitor fuel data size pos' little s
          | some m =>
            if m.supported then
              let v := visitor m little s
              if v.1 = false then (false, v.2.1, false)
              else if v.2.2 = true then (true, v.2.1, true)
              else scan_loop inflate visitor fuel data size pos' little v.2.1
            else scan_loop inflate visitor fuel data size pos' little s
        else if e.type = 15 then
          match decompress_zlib inflate e.payload e.num_bytes with
          | none => (false, s, false)
          | some dec =>
            let r := scan_loop inflate visitor fuel dec dec.length 0 little s
            if r.1 = false then (false, r.2.1, false)
            else if r.2.2 = true then (true, r.2.1, true)
            else scan_loop inflate visitor fuel data size pos' little r.2.1
        else scan_loop inflate visitor fuel data size pos' little s
    else (true, s, false)

/-- Model of `scan_elements` from MatHelper.c: the top-level entry of the recursive
depth-first element walk. -/
def scan_elements {σ : Type} (inflate : List Nat → Option (List Nat))
    (visitor : ParsedMatrix → Bool → σ → Bool × σ × Bool) (fuel : Nat)
    (data : List Nat) (size start : Nat) (little : Bool) (s : σ) :
    Bool × σ × Bool :=
  if start > size then (false, s, false)
  else scan_loop inflate visitor fuel data size start little s

/-- Model of `swap_elements_in_place` inner loops: reverse `count` consecutive blocks
of `elem_size` bytes. -/
def swap_blocks (elem_size : Nat) : Nat → List Nat → List Nat
  | 0, l => l
  | Nat.succ n, l => (l.take elem_size).reverse ++ swap_blocks elem_size n (l.drop elem_size)

/-- Model of `swap_elements_in_place` from MatHelper.c (no-op for `count = 0` or
`elem_size ≤ 1`). -/
def swap_elements_in_place (data : List Nat) (count elem_size : Nat) : List Nat :=
  if count = 0 ∨ elem_size ≤ 1 then data else swap_blocks elem_size count data

/-- The public `MatCube3D` from MatHelper.h (`data = none` models a NULL
data pointer). -/
structure MatCube3D where
  data : Option (List Nat)
  dims : Nat × Nat × Nat
  rank : Nat
  data_type : MatDataType
  deriving DecidableEq, Repr

/-- Model of `clear_cube` from MatHelper.c: the zeroed cube every failing load leaves
behind (NULL data, zero dims, zero rank, `MAT_DATA_FLOAT64`). -/
def cleared_cube : MatCube3D := ⟨none, (0, 0, 0), 0, .float64⟩

/-- The public `MatCubeInfo` descriptor from MatHelper.h. -/
structure MatCubeInfo where
  name : List Nat
  dims : Nat × Nat × Nat
  data_type : MatDataType
  deriving DecidableEq, Repr

/-- Model of `LoadContext` from MatHelper.c (`target_name = none` models a NULL
target pointer, `out_name` the optional caller name buffer). -/
structure LoadContext where
  target_name : Option (List Nat)
  first_only : Bool
  expected_rank : Nat
  cube : MatCube3D
  out_name : Option (List Nat)
  found : Bool
  deriving DecidableEq, Repr

/-- Model of `load_visitor` from MatHelper.c: match rank (and name unless
`first_only`), copy the payload out, byte-swap on big-endian files, fill the
cube, record the name, stop. -/
def load_visitor (m : ParsedMatrix) (little : Bool) (ctx : LoadContext) :
    Bool × LoadContext × Bool :=
  if ctx.found then (true, ctx, true)
  else if m.rank ≠ ctx.expected_rank then (true, ctx, false)
  else if ctx.first_only = false ∧
      (ctx.target_name.elim false (fun t => m.name ≠ t)) = true then
    (true, ctx, false)
  else
    match count_elements m.dims m.rank with
    | none => (false, ctx, false)
    | some element_count =>
      match checked_mul_size element_count m.element_size with
      | none => (false, ctx, false)
      | some byte_count =>
        if byte_count ≠ m.real_data_bytes then (false, ctx, false)
        else
          let copy := m.real_data.take byte_count
          let copy := if little = false ∧ m.element_size > 1 then
            swap_elements_in_place copy element_count m.element_size else copy
          let cube : MatCube3D :=
            ⟨some copy,
             (m.dim 0, m.dim 1, if ctx.expected_rank = 3 then m.dim 2 else 1),
             ctx.expected_rank, m.data_type⟩
          (true, { ctx with cube := cube, out_name := some m.name, found := true },
           true)

/-- Model of `ListContext` from MatHelper.c (`list = none` models the NULL pointer the
descriptor array starts as; `some l` an allocated array holding `l`). -/
structure ListContext where
  list : Option (List MatCubeInfo)
  count : Nat
  capacity : Nat
  expected_rank : Nat
  deriving DecidableEq, Repr

/-- The capacity escalation in `list_visitor`:
`(ctx->capacity == 0) ? 8 : (ctx->capacity * 2)` in `size_t` arithmetic. -/
def list_grow_capacity (capacity : Nat) : Nat :=
  if capacity = 0 then 8 else capacity * 2 % 2 ^ 64

/-- Model of `sizeof(MatCubeInfo)` on LP64: `char name[256]` + `size_t dims[3]` +
4-byte enum + 4 bytes padding. -/
def sizeof_MatCubeInfo : Nat := 288

/-- The byte size `list_visitor` passes to `realloc`:
`new_capacity * sizeof(MatCubeInfo)` in `size_t` arithmetic — computed with
no overflow check. -/
def list_grow_bytes (capacity : Nat) : Nat :=
  list_grow_capacity capacity * sizeof_MatCubeInfo % 2 ^ 64

/-- The growth step of the inflate sink in `decompress_zlib`:
`new_capacity = capacity * 2` in `size_t` arithmetic, rejected when
`new_capacity <= capacity` (the overflow check). -/
def inflate_grow_step (capacity : Nat) : Option Nat :=
  let new_capacity := capacity * 2 % 2 ^ 64
  if new_capacity ≤ capacity then none else some new_capacity

/-- The literal `"unnamed"` placed in a descriptor when a matrix has no
name. -/
def unnamed_bytes : List Nat := [117, 110, 110, 97, 109, 101, 100]

/-- Model of `list_visitor` from MatHelper.c: for each supported matrix of the
requested rank, grow the descriptor array if full (allocating it on the
first append) and push name, 3-slot dims and element type. -/
def list_visitor (m : ParsedMatrix) (_little : Bool) (ctx : ListContext) :
    Bool × ListContext × Bool :=
  if m.rank ≠ ctx.expected_rank then (true, ctx, false)
  else
    let grown : Option (List MatCubeInfo) × Nat :=
      if ctx.count = ctx.capacity then
        (some (ctx.list.getD []), list_grow_capacity ctx.capacity)
      else (ctx.list, ctx.capacity)
    let slot : MatCubeInfo :=
      ⟨(if m.name ≠ [] then m.name.take 255 else unnamed_bytes),
       (m.dim 0, m.dim 1, if ctx.expected_rank = 3 then m.dim 2 else 1),
       m.data_type⟩
    (true,
     { ctx with list := some (grown.1.getD [] ++ [slot]),
                count := ctx.count + 1, capacity := grown.2 },
     false)

/-- Model of `load_file` from MatHelper.c over the file-content model: require at
least 128 bytes, read the endian marker at offsets 126/127
(`'I','M'` = 73,77 little-endian; `'M','I'` big-endian; else reject). -/
def load_file (file : Option (List Nat)) : Option (List Nat × Bool) :=
  match file with
  | none => none
  | some bytes =>
    if bytes.length < 128 then none
    else if byteAt bytes 126 = 73 ∧ byteAt bytes 127 = 77 then some (bytes, true)
    else if byteAt bytes 126 = 77 ∧ byteAt bytes 127 = 73 then some (bytes, false)
    else none

/-- Model of `load_first_3d_double_cube` from MatHelper.c: clear the cube, load the
file, scan from offset 128 with the load visitor (no target name,
`first_only`, rank 3); on scan failure free and clear the cube; on success
report `ctx.found`. -/
def load_first_3d_double_cube (inflate : List Nat → Option (List Nat))
    (fuel : Nat) (file : Option (List Nat)) : Bool × MatCube3D :=
  match load_file file with
  | none => (false, cleared_cube)
  | some (bytes, little) =>
    let ctx : LoadContext := ⟨none, true, 3, cleared_cube, none, false⟩
    let r := scan_elements inflate load_visitor fuel bytes bytes.length 128 little ctx
    if r.1 = true then (r.2.1.found, r.2.1.cube) else (false, cleared_cube)

/-- Model of `load_cube_by_name` from MatHelper.c (rank-3 load by exact name). -/
def load_cube_by_name (inflate : List Nat → Option (List Nat)) (fuel : Nat)
    (file : Option (List Nat)) (varName : List Nat) : Bool × MatCube3D :=
  match load_file file with
  | none => (false, cleared_cube)
  | some (bytes, little) =>
    let ctx : LoadContext := ⟨some varName, false, 3, cleared_cube, none, false⟩
    let r := scan_elements inflate load_visitor fuel bytes bytes.length 128 little ctx
    if r.1 = true then (r.2.1.found, r.2.1.cube) else (false, cleared_cube)

/-- Model of `load_2d_array_by_name` from MatHelper.c (rank-2 load by exact name). -/
def load_2d_array_by_name (inflate : List Nat → Option (List Nat)) (fuel : Nat)
    (file : Option (List Nat)) (varName : List Nat) : Bool × MatCube3D :=
  match load_file file with
  | none => (false, cleared_cube)
  | some (bytes, little) =>
    let ctx : LoadContext := ⟨some varName, false, 2, cleared_cube, none, false⟩
    let r := scan_elements inflate load_visitor fuel bytes bytes.length 128 little ctx
    if r.1 = true then (r.2.1.found, r.2.1.cube) else (false, cleared_cube)

/-- Model of `list_mat_cube_variables` from MatHelper.c: `*outList`/`*outCount` start
as NULL/0 and are only replaced by the visitor context on a successful
scan. -/
def list_mat_cube_variables (inflate : List Nat → Option (List Nat))
    (fuel : Nat) (file : Option (List Nat)) :
    Bool × Option (List MatCubeInfo) × Nat :=
  match load_file file with
  | none => (false, none, 0)
  | some (bytes, little) =>
    let ctx : ListContext := ⟨none, 0, 0, 3⟩
    let r := scan_elements inflate list_visitor fuel bytes bytes.length 128 little ctx
    if r.1 = true then (true, r.2.1.list, r.2.1.count) else (false, none, 0)

/-- Model of `list_mat_2d_variables` from MatHelper.c (rank-2 listing). -/
def list_mat_2d_variables (inflate : List Nat → Option (List Nat))
    (fuel : Nat) (file : Option (List Nat)) :
    Bool × Option (List MatCubeInfo) × Nat :=
  match load_file file with
  | none => (false, none, 0)
  | some (bytes, little) =>
    let ctx : ListContext := ⟨none, 0, 0, 2⟩
    let r := scan_elements inflate list_visitor fuel bytes bytes.length 128 little ctx
    if r.1 = true then (true, r.2.1.list, r.2.1.count) else (false, none, 0)

/-- The two bytes `write_u16_le` from MatHelper.c puts in the file.  On a
little-endian host the value's own bytes are written; on a big-endian host
the `bswap16`-ed value's big-endian bytes are written — both orders emit
the value little-endian. -/
def write_u16_le (hostLittle : Bool) (v : Nat) : List Nat :=
  if hostLittle then [v % 256, v / 256 % 256]
  else [bswap16 v / 256 % 256, bswap16 v % 256]

/-- The four bytes `write_u32_le` from MatHelper.c puts in the file. -/
def write_u32_le (hostLittle : Bool) (v : Nat) : List Nat :=
  if hostLittle then [v % 256, v / 2 ^ 8 % 256, v / 2 ^ 16 % 256, v / 2 ^ 24 % 256]
  else [bswap32 v / 2 ^ 24 % 256, bswap32 v / 2 ^ 16 % 256,
        bswap32 v / 2 ^ 8 % 256, bswap32 v % 256]

/-- Model of `write_tag` from MatHelper.c: an 8-byte long-form tag. -/
def write_tag (hostLittle : Bool) (t nb : Nat) : List Nat :=
  write_u32_le hostLittle t ++ write_u32_le hostLittle nb

/-- Model of `write_padding` from MatHelper.c: `padding` zero bytes. -/
def write_padding (padding : Nat) : List Nat := List.replicate padding 0

/-- Model of `map_write_type` from MatHelper.c: in-memory type to
(class code, container data-type code, byte width). -/
def map_write_type : MatDataType → Nat × Nat × Nat
  | .float64 => (6, 9, 8)
  | .float32 => (7, 7, 4)
  | .uint8 => (9, 2, 1)
  | .uint16 => (11, 4, 2)
  | .int8 => (8, 1, 1)
  | .int16 => (10, 3, 2)

/-- Model of `write_data_le` from MatHelper.c: emit `element_count * element_size`
payload bytes, byte-swapping each element first when the host is
big-endian and elements are wider than one byte. -/
def write_data_le (hostLittle : Bool) (data : List Nat)
    (element_count element_size : Nat) : Option (List Nat) :=
  match checked_mul_size element_count element_size with
  | none => none
  | some byte_count =>
    if hostLittle = true ∨ element_size = 1 then some (data.take byte_count)
    else some (swap_elements_in_place (data.take byte_count) element_count element_size)

/-- The dimensions loop of `write_numeric_matrix` (lines 1306-1313): each
value must fit `int32_t`; emitted as a 32-bit word. -/
def write_dims_le (hostLittle : Bool) : List Nat → Option (List Nat)
  | [] => some []
  | d :: rest =>
    if d > INT32_MAX then none
    else (write_dims_le hostLittle rest).map (write_u32_le hostLittle d ++ ·)

/-- Model of `write_numeric_matrix` from MatHelper.c: validate, then lay out the
outer matrix tag and the four canonical sub-elements with 8-byte padding
(`none` = the C returns false). -/
def write_numeric_matrix (hostLittle : Bool) (name : List Nat)
    (dims : List Nat) (rank : Nat) (data_type : MatDataType)
    (data : List Nat) : Option (List Nat) :=
  if rank = 0 then none
  else
    let mapped := map_write_type data_type
    let mx_class := mapped.1
    let mi_data_type := mapped.2.1
    let element_size := mapped.2.2
    match count_elements dims rank with
    | none => none
    | some element_count =>
      match checked_mul_size element_count element_size with
      | none => none
      | some raw_data_bytes =>
        if raw_data_bytes > UINT32_MAX then none
        else
          let data_bytes := raw_data_bytes
          let data_pad := aligned8 data_bytes - data_bytes
          let name_bytes := name.length
          if name_bytes > UINT32_MAX then none
          else
            let name_pad := aligned8 name_bytes - name_bytes
            if rank > INT_MAX ∨ rank > UINT32_MAX / 4 then none
            else
              let dims_bytes := rank * 4
              let dims_pad := aligned8 dims_bytes - dims_bytes
              let matrix_bytes := 16 + (8 + dims_bytes + dims_pad) +
                (8 + name_bytes + name_pad) + (8 + data_bytes + data_pad)
              if matrix_bytes > UINT32_MAX then none
              else
                match write_dims_le hostLittle (dims.take rank) with
                | none => none
                | some dims_out =>
                  match write_data_le hostLittle data element_count element_size with
                  | none => none
                  | some data_out =>
                    some (write_tag hostLittle 14 matrix_bytes ++
                      write_tag hostLittle 6 8 ++
                      write_u32_le hostLittle mx_class ++ write_u32_le hostLittle 0 ++
                      write_tag hostLittle 5 dims_bytes ++ dims_out ++
                      write_padding dims_pad ++
                      write_tag hostLittle 1 name_bytes ++ name ++
                      write_padding name_pad ++
                      write_tag hostLittle mi_data_type data_bytes ++ data_out ++
                      write_padding data_pad)

/-- The fixed description text `write_mat_header` copies into the 116-byte
description field. -/
def header_text_bytes : List Nat :=
  "MATLAB 5.0 MAT-file, Platform: macOS, Created by HSIView".toList.map Char.toNat

/-- Model of `write_mat_header` from MatHelper.c: 116 description bytes (text copied
over a space-filled buffer), 8 zero subsystem bytes, the version word
`0x0100` little-endian, then `'I','M'`. -/
def write_mat_header (hostLittle : Bool) : List Nat :=
  (header_text_bytes.take 116 ++
    List.replicate (116 - min header_text_bytes.length 116) 32) ++
  List.replicate 8 0 ++ write_u16_le hostLittle 0x0100 ++ [73, 77]

/-- Model of `save_3d_cube` from MatHelper.c: demand data and rank 3, then write the
header followed by one matrix element (the emitted file bytes; `none` = the
C returns false). -/
def save_3d_cube (hostLittle : Bool) (varName : List Nat) (cube : MatCube3D) :
    Option (List Nat) :=
  match cube.data with
  | none => none
  | some d =>
    if cube.rank ≠ 3 then none
    else
      (write_numeric_matrix hostLittle varName
          [cube.dims.1, cube.dims.2.1, cube.dims.2.2] 3 cube.data_type d).map
        (write_mat_header hostLittle ++ ·)

/-- Model of `save_wavelengths` from MatHelper.c: append one rank-2 float64 matrix
with dims `{count, 1}` to an existing file (the appended bytes; `none` =
the C returns false). -/
def save_wavelengths (hostLittle : Bool) (varName : List Nat)
    (wavelengths : List Nat) (count : Nat) : Option (List Nat) :=
  if count = 0 then none
  else write_numeric_matrix hostLittle varName [count, 1] 2 .float64 wavelengths

/-! ### Helper lemmas -/

theorem byteAt_lt (bytes : List Nat) (i : Nat) : byteAt bytes i < 256 := by
  simp only [byteAt]
  omega

theorem bswap32_lt (v : Nat) : bswap32 v < 2 ^ 32 := by
  simp only [bswap32]
  omega

theorem read_u32_lt (bytes : List Nat) (off : Nat) (little : Bool) :
    read_u32 bytes off little < 2 ^ 32 := by
  simp only [read_u32]
  split
  · have h0 := byteAt_lt bytes off
    have h1 := byteAt_lt bytes (off + 1)
    have h2 := byteAt_lt bytes (off + 2)
    have h3 := byteAt_lt bytes (off + 3)
    omega
  · exact bswap32_lt _

theorem checked_add_size_some {a b v : Nat} (h : checked_add_size a b = some v) :
    v = a + b := by
  simp only [checked_add_size] at h
  split at h
  · exact absurd h (by simp)
  · exact (Option.some_inj.mp h).symm

theorem checked_mul_size_some {a b v : Nat} (h : checked_mul_size a b = some v) :
    v = a * b := by
  simp only [checked_mul_size] at h
  split at h
  · rcases Option.some_inj.mp h with rfl
    rcases ‹a = 0 ∨ b = 0› with rfl | rfl <;> simp
  · split at h
    · exact absurd h (by simp)
    · exact (Option.some_inj.mp h).symm

/-- C4: for every successful element decode, the cursor advances by at least
8 and never beyond the stream length (the long-form tolerance clamp
included). -/
theorem read_element_cursor (r : MatReader) (e : MatElement) (pos' : Nat)
    (h : read_element r = some (e, pos')) :
    r.pos + 8 ≤ pos' ∧ pos' ≤ r.size := by
  simp only [read_element] at h
  split at h
  · simp at h
  next hguard =>
    rw [not_or] at hguard
    obtain ⟨hpos, hrem⟩ := hguard
    have hps : r.pos + 8 ≤ r.size := by omega
    split at h
    · -- short form
      split at h
      · simp at h
      · simp only [Option.some.injEq, Prod.mk.injEq] at h
        obtain ⟨-, hp⟩ := h
        omega
    · -- long form
      rcases hadd : checked_add_size r.pos 8 with - | payloadPos
      · rw [hadd] at h
        simp at h
      · simp only [hadd] at h
        have hpp := checked_add_size_some hadd
        subst hpp
        split at h
        · simp at h
        next hbounds =>
          rw [not_or] at hbounds
          obtain ⟨hpb, hnb⟩ := hbounds
          split at h
          · simp at h
          · rcases hadd2 : checked_add_size (r.pos + 8)
                (aligned8 (read_u32 r.data (r.pos + 4) r.little)) with - | np
            · rw [hadd2] at h
              simp at h
            · simp only [hadd2] at h
              simp only [Option.some.injEq, Prod.mk.injEq] at h
              obtain ⟨-, hp⟩ := h
              have hnp := checked_add_size_some hadd2
              by_cases hcl : np > r.size
              · rw [if_pos hcl] at hp
                omega
              · rw [if_neg hcl] at hp
                omega

/-- C6: when the upper 16 bits of W0 are non-zero the decode is short form:
type = low 16 bits, length = upper 16 bits, payload = the 4 bytes after W0,
failure iff the length exceeds 4, cursor advance exactly 8. -/
theorem read_element_short_form (r : MatReader)
    (hbound : r.pos + 8 ≤ r.size)
    (hshort : read_u32 r.data r.pos r.little / 2 ^ 16 ≠ 0) :
    (read_u32 r.data r.pos r.little / 2 ^ 16 ≤ 4 →
      read_element r = some (⟨read_u32 r.data r.pos r.little % 2 ^ 16,
        read_u32 r.data r.pos r.little / 2 ^ 16,
        (r.data.drop (r.pos + 4)).take 4⟩, r.pos + 8)) ∧
    (4 < read_u32 r.data r.pos r.little / 2 ^ 16 → read_element r = none) := by
  have hlt := read_u32_lt r.data r.pos r.little
  have hmod : read_u32 r.data r.pos r.little / 2 ^ 16 % 2 ^ 16 =
      read_u32 r.data r.pos r.little / 2 ^ 16 :=
    Nat.mod_eq_of_lt (by omega)
  constructor <;> intro hnb <;>
    simp only [read_element, hmod] <;>
    rw [if_neg (by omega), if_pos hshort]
  · rw [if_neg (by omega)]
  · rw [if_pos (by omega)]

/-- C1 (amended): a malformed element in the scanned stream ends the scan at
that element, and the scan reports success with the context untouched (the
tail is treated as trailing garbage, per the comment in `scan_elements`). -/
theorem scan_elements_malformed_is_tolerated {σ : Type}
    (inflate : List Nat → Option (List Nat))
    (visitor : ParsedMatrix → Bool → σ → Bool × σ × Bool)
    (fuel : Nat) (data : List Nat) (size pos : Nat) (little : Bool) (s : σ)
    (hb : pos + 8 ≤ size)
    (hm : read_element ⟨data, size, pos, little⟩ = none) :
    scan_elements inflate visitor (fuel + 1) data size pos little s =
      (true, s, false) := by
  simp only [scan_elements]
  rw [if_neg (by omega : ¬pos > size)]
  simp only [scan_loop]
  rw [if_pos hb, hm]

/-- A 136-byte file: a valid 128-byte little-endian header followed by a
malformed short-form element (payload length 5 > 4). -/
def c1_cex_file : List Nat :=
  List.replicate 126 0 ++ [73, 77] ++ [1, 0, 5, 0, 0, 0, 0, 0]

/-- C1 counterexample: the top-level scan of `c1_cex_file` meets a malformed
short-form element (length 5 > 4) at offset 128 and reports SUCCESS with an
untouched context, not failure as the claim states. -/
theorem c1_scan_counterexample :
    scan_elements (fun _ => none) list_visitor 4 c1_cex_file 136 128 true
      (⟨none, 0, 0, 3⟩ : ListContext) =
      (true, (⟨none, 0, 0, 3⟩ : ListContext), false) := by rfl

/-- Witness for `scan_elements_malformed_is_tolerated` at a concrete
stream. -/
theorem scan_elements_malformed_is_tolerated_witness :
    128 + 8 ≤ 136 ∧
    read_element ⟨c1_cex_file, 136, 128, true⟩ = none ∧
    scan_elements (fun _ => none) list_visitor 4 c1_cex_file 136 128 true
      (⟨none, 0, 0, 3⟩ : ListContext) =
      (true, (⟨none, 0, 0, 3⟩ : ListContext), false) :=
  ⟨by omega, by rfl,
   scan_elements_malformed_is_tolerated (fun _ => none) list_visitor 3
     c1_cex_file 136 128 true ⟨none, 0, 0, 3⟩ (by omega) (by rfl)⟩

/-- A 12-byte stream holding one long-form element whose 8-byte-aligned
padded end (16) overshoots the stream end: the tolerance clamp applies. -/
def c4_reader : MatReader := ⟨[9, 0, 0, 0, 4, 0, 0, 0, 10, 20, 30, 40], 12, 0, true⟩

/-- Witness for `read_element_cursor`: the clamped long-form decode of
`c4_reader` succeeds and lands at the payload end 12 = stream length. -/
theorem read_element_cursor_witness :
    read_element c4_reader = some (⟨9, 4, [10, 20, 30, 40]⟩, 12) ∧
    (c4_reader.pos + 8 ≤ 12 ∧ 12 ≤ c4_reader.size) :=
  ⟨by rfl, read_element_cursor c4_reader ⟨9, 4, [10, 20, 30, 40]⟩ 12 (by rfl)⟩

/-- An 8-byte stream holding one short-form element: W0 = 0x00020301, so the
upper 16 bits are 2 (the length) and the lower 16 bits 0x0301 (the type). -/
def c6_reader : MatReader := ⟨[1, 3, 2, 0, 55, 66, 77, 88], 8, 0, true⟩

/-- Witness for `read_element_short_form` at `c6_reader`. -/
theorem read_element_short_form_witness :
    c6_reader.pos + 8 ≤ c6_reader.size ∧
    read_u32 c6_reader.data c6_reader.pos c6_reader.little / 2 ^ 16 ≠ 0 ∧
    read_element c6_reader = some (⟨769, 2, [55, 66, 77, 88]⟩, 8) :=
  ⟨by decide, by decide,
   (read_element_short_form c6_reader (by decide) (by decide)).1 (by decide)⟩

/-- C2 (amended): a sub-element is recorded as real data only when the
array-flags sub-element has already been seen, the supported flag is set,
no real data was recorded yet, and the type maps to a numeric data-type —
the dimensions sub-element need NOT have been seen; the recording stores
the payload view, its length, the mapped type and its byte width. -/
theorem parse_step_real_data_requires (little : Bool) (st : PState)
    (e : MatElement) (st' : PState)
    (hstep : parse_step little st e = st')
    (h0 : st.has_real_data = false)
    (h1 : st'.has_real_data = true) :
    st.has_flags = true ∧ st.m.supported = true ∧
    ∃ dt es, map_numeric_mi_type e.type = some (dt, es) ∧
      st'.m.real_data = e.payload ∧ st'.m.real_data_bytes = e.num_bytes ∧
      st'.m.data_type = dt ∧ st'.m.element_size = es := by
  simp only [parse_step] at hstep
  split at hstep
  · subst hstep
    simp only [] at h1
    exact absurd h1 (by rw [h0]; simp)
  split at hstep
  · split at hstep <;>
      · subst hstep
        simp only [] at h1
        exact absurd h1 (by rw [h0]; simp)
  split at hstep
  · subst hstep
    simp only [] at h1
    exact absurd h1 (by rw [h0]; simp)
  split at hstep
  · next hc =>
    obtain ⟨-, hsup, hflags⟩ := hc
    split at hstep
    · next dt es hmap =>
      subst hstep
      exact ⟨hflags, hsup, dt, es, hmap, rfl, rfl, rfl, rfl⟩
    · subst hstep
      exact absurd h1 (by rw [h0]; simp)
  · subst hstep
    exact absurd h1 (by rw [h0]; simp)

/-- A matrix payload in which the real-data sub-element (type 9, `miDOUBLE`)
comes BEFORE the dimensions sub-element: array flags (class 6, double),
then 8 bytes of double data, then dims (1 × 1). -/
def c2_cex_payload : List Nat :=
  [6, 0, 0, 0, 8, 0, 0, 0, 6, 0, 0, 0, 0, 0, 0, 0,
   9, 0, 0, 0, 8, 0, 0, 0, 1, 2, 3, 4, 5, 6, 7, 8,
   5, 0, 0, 0, 8, 0, 0, 0, 1, 0, 0, 0, 1, 0, 0, 0]

/-- C2 counterexample: in `c2_cex_payload` a numeric sub-element precedes
the dimensions sub-element, yet the parser RECORDS it as real data (the C
condition checks `supported && has_flags` but not `has_dims`), and the
matrix even comes back supported. -/
theorem c2_parse_counterexample :
    parse_matrix_payload c2_cex_payload 48 true =
      some ⟨true, [], [1, 1], 2, .float64, [1, 2, 3, 4, 5, 6, 7, 8], 8, 8⟩ := by
  rfl

/-- The walk state right after a supported array-flags sub-element. -/
def c2_state : PState :=
  ⟨true, false, false, false, { init_parsed_matrix with supported := true }⟩

/-- A double-typed data sub-element. -/
def c2_elem : MatElement := ⟨9, 8, [1, 2, 3, 4, 5, 6, 7, 8]⟩

/-- Witness for `parse_step_real_data_requires` at a concrete state and
element. -/
theorem parse_step_real_data_requires_witness :
    c2_state.has_real_data = false ∧
    (parse_step true c2_state c2_elem).has_real_data = true ∧
    (c2_state.has_flags = true ∧ c2_state.m.supported = true ∧
      ∃ dt es, map_numeric_mi_type c2_elem.type = some (dt, es) ∧
        (parse_step true c2_state c2_elem).m.real_data = c2_elem.payload ∧
        (parse_step true c2_state c2_elem).m.real_data_bytes = c2_elem.num_bytes ∧
        (parse_step true c2_state c2_elem).m.data_type = dt ∧
        (parse_step true c2_state c2_elem).m.element_size = es) :=
  ⟨rfl, rfl,
   parse_step_real_data_requires true c2_state c2_elem _ rfl rfl rfl⟩

theorem count_go_some : ∀ (l : List Nat) (acc v : Nat),
    count_go l acc = some v → v = acc * l.prod := by
  intro l
  induction l with
  | nil =>
    intro acc v h
    simp only [count_go, Option.some.injEq] at h
    simp [← h]
  | cons d rest ih =>
    intro acc v h
    simp only [count_go] at h
    split at h
    · simp at h
    · rcases hm : checked_mul_size acc d with - | t
      · rw [hm] at h; simp at h
      · rw [hm] at h
        have ht := checked_mul_size_some hm
        have hv := ih t v h
        rw [hv, ht, List.prod_cons, Nat.mul_assoc]

theorem count_elements_some {dims : List Nat} {rank v : Nat}
    (h : count_elements dims rank = some v) :
    rank ≠ 0 ∧ v = (dims.take rank).prod := by
  simp only [count_elements] at h
  split at h
  · simp at h
  next hr =>
    have := count_go_some _ _ _ h
    exact ⟨hr, by simpa using this⟩

theorem read_dims_from_length (p : List Nat) (little : Bool) (t es : Nat) :
    ∀ (n i : Nat) (l : List Nat),
      read_dims_from p little t es n i = some l → l.length = n := by
  intro n
  induction n with
  | zero =>
    intro i l h
    simp only [read_dims_from, Option.some.injEq] at h
    simp [← h]
  | succ k ih =>
    intro i l h
    simp only [read_dims_from] at h
    split at h <;> split at h <;>
      first
      | · rw [Option.map_eq_some'] at h
          obtain ⟨l0, hrec, hl⟩ := h
          subst hl
          simp [ih _ _ hrec]
      | simp at h

theorem parse_dimensions_element_length (e : MatElement) (little : Bool)
    (ds : List Nat) (rk : Nat)
    (h : parse_dimensions_element e little = some (ds, rk)) :
    ds.length = rk := by
  simp only [parse_dimensions_element] at h
  split_ifs at h <;> try simp at h
  all_goals split at h <;> try simp at h
  all_goals try omega
  all_goals
    obtain ⟨h1, h2⟩ := h
    subst h1
    subst h2
    exact read_dims_from_length _ _ _ _ _ _ _ (by assumption)

/-- Auxiliary walk invariant: once a rank is set, the stored dims vector has
exactly that many entries. -/
def rank_dims_ok (st : PState) : Prop :=
  st.m.rank ≠ 0 → st.m.dims.length = st.m.rank

theorem parse_step_rank_dims (little : Bool) (st : PState) (e : MatElement)
    (h : rank_dims_ok st) : rank_dims_ok (parse_step little st e) := by
  simp only [parse_step]
  split
  · exact fun hr => h hr
  split
  · split
    next ds rk hds =>
      intro hr
      exact parse_dimensions_element_length _ _ _ _ hds
    · intro hr
      exact absurd rfl hr
  split
  · exact fun hr => h hr
  split
  · split
    · exact fun hr => h hr
    · exact h
  · exact h

theorem parse_loop_rank_dims (little : Bool) :
    ∀ (fuel : Nat) (data : List Nat) (size pos : Nat) (st st' : PState),
      parse_loop little fuel data size pos st = some st' →
      rank_dims_ok st → rank_dims_ok st' := by
  intro fuel
  induction fuel with
  | zero =>
    intro data size pos st st' h
    simp [parse_loop] at h
  | succ k ih =>
    intro data size pos st st' h hok
    simp only [parse_loop] at h
    split at h
    · rcases hre : read_element ⟨data, size, pos, little⟩ with - | ⟨e, pos'⟩
      · rw [hre] at h; simp at h
      · rw [hre] at h
        exact ih _ _ _ _ _ h (parse_step_rank_dims _ _ _ hok)
    · rw [Option.some_inj] at h
      subst h
      exact hok

/-- C3: every matrix `parse_matrix_payload` returns with the supported flag
set satisfies `product(dims) * element_size = real_data_bytes` exactly (a
mismatch is marked unsupported by `finalize_matrix`). -/
theorem parse_matrix_payload_size_invariant (payload : List Nat) (size : Nat)
    (little : Bool) (m : ParsedMatrix)
    (hp : parse_matrix_payload payload size little = some m)
    (hs : m.supported = true) :
    m.dims.prod * m.element_size = m.real_data_bytes := by
  simp only [parse_matrix_payload] at hp
  rw [Option.map_eq_some'] at hp
  obtain ⟨st, hloop, hfin⟩ := hp
  have hok : rank_dims_ok st :=
    parse_loop_rank_dims little _ _ _ _ _ _ hloop (fun hr => absurd rfl hr)
  subst hfin
  simp only [finalize_matrix] at hs ⊢
  by_cases h1 : st.has_flags = false ∨ st.has_dims = false
  · rw [if_pos h1] at hs
    simp at hs
  rw [if_neg h1] at hs ⊢
  by_cases h2 : st.m.supported = false ∨ st.has_real_data = false
  · rw [if_pos h2] at hs
    simp at hs
  rw [if_neg h2] at hs ⊢
  rcases hc : count_elements st.m.dims st.m.rank with - | cnt
  · rw [hc] at hs
    simp at hs
  rw [hc] at hs
  dsimp only at hs ⊢
  rcases hm : checked_mul_size cnt st.m.element_size with - | expected
  · rw [hm] at hs
    simp at hs
  rw [hm] at hs
  dsimp only at hs ⊢
  by_cases he : expected ≠ st.m.real_data_bytes
  · rw [if_pos he] at hs
    simp at hs
  rw [if_neg he] at hs ⊢
  push_neg at he
  try dsimp only at hs ⊢
  obtain ⟨hrank, hcnt⟩ := count_elements_some hc
  have hlen := hok hrank
  have hexp := checked_mul_size_some hm
  have hprod : st.m.dims.prod = cnt := by
    rw [hcnt, ← hlen, List.take_length]
  rw [hprod, ← hexp]
  exact he

/-- A well-formed matrix payload: flags (class 6 = double), dims 2 × 1,
16 bytes of double data. -/
def c3_witness_payload : List Nat :=
  [6, 0, 0, 0, 8, 0, 0, 0, 6, 0, 0, 0, 0, 0, 0, 0,
   5, 0, 0, 0, 8, 0, 0, 0, 2, 0, 0, 0, 1, 0, 0, 0,
   9, 0, 0, 0, 16, 0, 0, 0,
   1, 2, 3, 4, 5, 6, 7, 8, 9, 10, 11, 12, 13, 14, 15, 16]

/-- The matrix `parse_matrix_payload` produces from `c3_witness_payload`. -/
def c3_matrix : ParsedMatrix :=
  ⟨true, [], [2, 1], 2, .float64,
   [1, 2, 3, 4, 5, 6, 7, 8, 9, 10, 11, 12, 13, 14, 15, 16], 16, 8⟩

/-- Witness for `parse_matrix_payload_size_invariant` at a concrete
payload. -/
theorem parse_matrix_payload_size_invariant_witness :
    parse_matrix_payload c3_witness_payload 56 true = some c3_matrix ∧
    c3_matrix.supported = true ∧
    c3_matrix.dims.prod * c3_matrix.element_size = c3_matrix.real_data_bytes :=
  ⟨by rfl, by rfl,
   parse_matrix_payload_size_invariant c3_witness_payload 56 true c3_matrix
     (by rfl) (by rfl)⟩

theorem scan_loop_preserves {σ : Type} (inflate : List Nat → Option (List Nat))
    (visitor : ParsedMatrix → Bool → σ → Bool × σ × Bool) (P : σ → Prop)
    (hv : ∀ m le s, P s → P (visitor m le s).2.1) :
    ∀ (fuel : Nat) (data : List Nat) (size pos : Nat) (little : Bool) (s : σ),
      P s → P (scan_loop inflate visitor fuel data size pos little s).2.1 := by
  intro fuel
  induction fuel with
  | zero =>
    intro data size pos little s hP
    simpa [scan_loop] using hP
  | succ k ih =>
    intro data size pos little s hP
    simp only [scan_loop]
    split
    · rcases hre : read_element ⟨data, size, pos, little⟩ with - | ⟨e, pos'⟩
      · exact hP
      · try dsimp only
        by_cases h14 : e.type = 14
        · rw [if_pos h14]
          rcases hpm : parse_matrix_payload e.payload e.num_bytes little with - | m
        
          · exact ih _ _ _ _ _ hP
          · try dsimp only
            split
            · by_cases hok : (visitor m little s).1 = false
              · rw [if_pos hok]
                exact hv _ _ _ hP
              · rw [if_neg hok]
                by_cases hstop : (visitor m little s).2.2 = true
                · rw [if_pos hstop]
                  exact hv _ _ _ hP
                · rw [if_neg hstop]
                  exact ih _ _ _ _ _ (hv _ _ _ hP)
            · exact ih _ _ _ _ _ hP
        · rw [if_neg h14]
          by_cases h15 : e.type = 15
          · rw [if_pos h15]
            rcases hdz : decompress_zlib inflate e.payload e.num_bytes with - | dec
            · exact hP
            · try dsimp only
              have hnested := ih dec dec.length 0 little s hP
              by_cases hok :
                  (scan_loop inflate visitor k dec dec.length 0 little s).1 = false
              · rw [if_pos hok]
                exact hnested
              · rw [if_neg hok]
                by_cases hstop :
                    (scan_loop inflate visitor k dec dec.length 0 little s).2.2 = true
                · rw [if_pos hstop]
                  exact hnested
                · rw [if_neg hstop]
                  exact ih _ _ _ _ _ hnested
          · rw [if_neg h15]
            exact ih _ _ _ _ _ hP
    · exact hP

theorem scan_elements_preserves {σ : Type} (inflate : List Nat → Option (List Nat))
    (visitor : ParsedMatrix → Bool → σ → Bool × σ × Bool) (P : σ → Prop)
    (hv : ∀ m le s, P s → P (visitor m le s).2.1)
    (fuel : Nat) (data : List Nat) (size start : Nat) (little : Bool) (s : σ)
    (hP : P s) :
    P (scan_elements inflate visitor fuel data size start little s).2.1 := by
  simp only [scan_elements]
  split
  · exact hP
  · exact scan_loop_preserves inflate visitor P hv fuel data size start little s hP

theorem load_visitor_not_found (m : ParsedMatrix) (le : Bool) (ctx : LoadContext)
    (h : ctx.found = false → ctx.cube = cleared_cube) :
    (load_visitor m le ctx).2.1.found = false →
      (load_visitor m le ctx).2.1.cube = cleared_cube := by
  simp only [load_visitor]
  split
  · exact h
  split
  · exact h
  split
  · exact h
  split
  · exact h
  split
  · exact h
  split
  · exact h
  · intro hf
    exact absurd hf (by simp)

theorem list_visitor_count_zero (m : ParsedMatrix) (le : Bool) (ctx : ListContext)
    (h : ctx.count = 0 → ctx.list = none) :
    (list_visitor m le ctx).2.1.count = 0 → (list_visitor m le ctx).2.1.list = none := by
  simp only [list_visitor]
  split
  · exact h
  · intro hc
    exact absurd hc (by simp)

theorem load_scan_keeps_clear (inflate : List Nat → Option (List Nat))
    (fuel : Nat) (bytes : List Nat) (little : Bool) (ctx0 : LoadContext)
    (h0 : ctx0.found = false → ctx0.cube = cleared_cube) :
    (scan_elements inflate load_visitor fuel bytes bytes.length 128 little
        ctx0).2.1.found = false →
      (scan_elements inflate load_visitor fuel bytes bytes.length 128 little
        ctx0).2.1.cube = cleared_cube :=
  scan_elements_preserves inflate load_visitor
    (fun c => c.found = false → c.cube = cleared_cube)
    load_visitor_not_found fuel bytes bytes.length 128 little ctx0 h0

/-- C7: every entry point reports success through a boolean, and whenever
that boolean is false the outputs are cleared: the cube of the three load
entry points is the zeroed cube, the descriptor-list outputs of the two
listing entry points are NULL with count 0.  A partially filled cube is
never returned with a false flag. -/
theorem entry_points_clear_output_on_failure
    (inflate : List Nat → Option (List Nat)) (fuel : Nat)
    (file : Option (List Nat)) (varName : List Nat) :
    ((load_first_3d_double_cube inflate fuel file).1 = false →
      (load_first_3d_double_cube inflate fuel file).2 = cleared_cube) ∧
    ((load_cube_by_name inflate fuel file varName).1 = false →
      (load_cube_by_name inflate fuel file varName).2 = cleared_cube) ∧
    ((load_2d_array_by_name inflate fuel file varName).1 = false →
      (load_2d_array_by_name inflate fuel file varName).2 = cleared_cube) ∧
    ((list_mat_cube_variables inflate fuel file).1 = false →
      (list_mat_cube_variables inflate fuel file).2 = (none, 0)) ∧
    ((list_mat_2d_variables inflate fuel file).1 = false →
      (list_mat_2d_variables inflate fuel file).2 = (none, 0)) := by
  refine ⟨?_, ?_, ?_, ?_, ?_⟩ <;> intro h <;>
    simp only [load_first_3d_double_cube, load_cube_by_name,
      load_2d_array_by_name, list_mat_cube_variables, list_mat_2d_variables,
      if_pos, if_neg] at h ⊢ <;>
    rcases hlf : load_file file with - | ⟨bytes, little⟩ <;> rw [hlf] at h <;>
    try rfl
  all_goals dsimp only at h ⊢
  case _ =>
    by_cases hok : (scan_elements inflate load_visitor fuel bytes bytes.length
        128 little ⟨none, true, 3, cleared_cube, none, false⟩).1 = true
    · rw [if_pos hok] at h ⊢
      exact load_scan_keeps_clear inflate fuel bytes little _ (fun _ => rfl) h
    · rw [if_neg hok]
  case _ =>
    by_cases hok : (scan_elements inflate load_visitor fuel bytes bytes.length
        128 little ⟨some varName, false, 3, cleared_cube, none, false⟩).1 = true
    · rw [if_pos hok] at h ⊢
      exact load_scan_keeps_clear inflate fuel bytes little _ (fun _ => rfl) h
    · rw [if_neg hok]
  case _ =>
    by_cases hok : (scan_elements inflate load_visitor fuel bytes bytes.length
        128 little ⟨some varName, false, 2, cleared_cube, none, false⟩).1 = true
    · rw [if_pos hok] at h ⊢
      exact load_scan_keeps_clear inflate fuel bytes little _ (fun _ => rfl) h
    · rw [if_neg hok]
  case _ =>
    by_cases hok : (scan_elements inflate list_visitor fuel bytes bytes.length
        128 little ⟨none, 0, 0, 3⟩).1 = true
    · rw [if_pos hok] at h
      exact absurd h (by simp)
    · rw [if_neg hok]
  case _ =>
    by_cases hok : (scan_elements inflate list_visitor fuel bytes bytes.length
        128 little ⟨none, 0, 0, 2⟩).1 = true
    · rw [if_pos hok] at h
      exact absurd h (by simp)
    · rw [if_neg hok]

/-- A 128-byte file with an invalid endian marker: every entry point fails
on it. -/
def c7_bad_file : List Nat := List.replicate 128 0

set_option maxRecDepth 40000 in
/-- Witness for `entry_points_clear_output_on_failure`: all five read entry
points fail on `c7_bad_file` and leave cleared outputs. -/
theorem entry_points_clear_output_on_failure_witness :
    (load_first_3d_double_cube (fun _ => none) 1 (some c7_bad_file)).2 =
      cleared_cube ∧
    (load_cube_by_name (fun _ => none) 1 (some c7_bad_file) [65]).2 =
      cleared_cube ∧
    (load_2d_array_by_name (fun _ => none) 1 (some c7_bad_file) [65]).2 =
      cleared_cube ∧
    (list_mat_cube_variables (fun _ => none) 1 (some c7_bad_file)).2 = (none, 0) ∧
    (list_mat_2d_variables (fun _ => none) 1 (some c7_bad_file)).2 = (none, 0) :=
  ⟨(entry_points_clear_output_on_failure (fun _ => none) 1 (some c7_bad_file)
      [65]).1 (by rfl),
   (entry_points_clear_output_on_failure (fun _ => none) 1 (some c7_bad_file)
      [65]).2.1 (by rfl),
   (entry_points_clear_output_on_failure (fun _ => none) 1 (some c7_bad_file)
      [65]).2.2.1 (by rfl),
   (entry_points_clear_output_on_failure (fun _ => none) 1 (some c7_bad_file)
      [65]).2.2.2.1 (by rfl),
   (entry_points_clear_output_on_failure (fun _ => none) 1 (some c7_bad_file)
      [65]).2.2.2.2 (by rfl)⟩

theorem list_scan_keeps_null (inflate : List Nat → Option (List Nat))
    (fuel : Nat) (bytes : List Nat) (little : Bool) (ctx0 : ListContext)
    (h0 : ctx0.count = 0 → ctx0.list = none) :
    (scan_elements inflate list_visitor fuel bytes bytes.length 128 little
        ctx0).2.1.count = 0 →
      (scan_elements inflate list_visitor fuel bytes bytes.length 128 little
        ctx0).2.1.list = none :=
  scan_elements_preserves inflate list_visitor
    (fun c => c.count = 0 → c.list = none)
    list_visitor_count_zero fuel bytes bytes.length 128 little ctx0 h0

/-- C9: when a listing entry point succeeds with count 0 (no supported
matrix of the requested rank was appended), the returned descriptor pointer
is NULL — the array is only allocated on the first matching matrix. -/
theorem listing_no_match_outputs (inflate : List Nat → Option (List Nat))
    (fuel : Nat) (file : Option (List Nat)) :
    ((list_mat_cube_variables inflate fuel file).1 = true →
      (list_mat_cube_variables inflate fuel file).2.2 = 0 →
      (list_mat_cube_variables inflate fuel file).2.1 = none) ∧
    ((list_mat_2d_variables inflate fuel file).1 = true →
      (list_mat_2d_variables inflate fuel file).2.2 = 0 →
      (list_mat_2d_variables inflate fuel file).2.1 = none) := by
  constructor <;> intro hok hcnt <;>
    simp only [list_mat_cube_variables, list_mat_2d_variables] at hok hcnt ⊢ <;>
    rcases hlf : load_file file with - | ⟨bytes, little⟩ <;>
    rw [hlf] at hok hcnt <;> dsimp only at hok hcnt ⊢ <;> try simp at hok
  case _ =>
    by_cases hscan : (scan_elements inflate list_visitor fuel bytes bytes.length
        128 little ⟨none, 0, 0, 3⟩).1 = true
    · rw [if_pos hscan] at hcnt ⊢
      exact list_scan_keeps_null inflate fuel bytes little _ (fun _ => rfl) hcnt
    · rw [if_neg hscan] at hok
      simp at hok
  case _ =>
    by_cases hscan : (scan_elements inflate list_visitor fuel bytes bytes.length
        128 little ⟨none, 0, 0, 2⟩).1 = true
    · rw [if_pos hscan] at hcnt ⊢
      exact list_scan_keeps_null inflate fuel bytes little _ (fun _ => rfl) hcnt
    · rw [if_neg hscan] at hok
      simp at hok

/-- A header-only little-endian file: no elements at all. -/
def c9_file : List Nat := List.replicate 126 0 ++ [73, 77]

set_option maxRecDepth 40000 in
/-- Witness for `listing_no_match_outputs`: listing the header-only
`c9_file` succeeds with NULL list and count 0. -/
theorem listing_no_match_outputs_witness :
    (list_mat_cube_variables (fun _ => none) 2 (some c9_file)).1 = true ∧
    (list_mat_cube_variables (fun _ => none) 2 (some c9_file)).2.2 = 0 ∧
    (list_mat_cube_variables (fun _ => none) 2 (some c9_file)).2.1 = none :=
  ⟨by rfl, by rfl,
   (listing_no_match_outputs (fun _ => none) 2 (some c9_file)).1
     (by rfl) (by rfl)⟩

/-- C5: the inflate sink's growth step rejects a doubling that wraps
(`new_capacity <= capacity`), but the descriptor list's growth computes
`new_capacity * sizeof(MatCubeInfo)` with NO overflow check: at capacity
2^55 the byte size passed to `realloc` wraps from 9·2^61 to 2^61 — far less
than the 288·(2^55+1) bytes the grown array needs. -/
theorem growable_buffer_overflow_checks :
    inflate_grow_step (2 ^ 63) = none ∧
    inflate_grow_step (2 ^ 62) = some (2 ^ 63) ∧
    list_grow_capacity (2 ^ 55) = 2 ^ 56 ∧
    list_grow_bytes (2 ^ 55) = 2 ^ 61 ∧
    list_grow_bytes (2 ^ 55) < 288 * (2 ^ 55 + 1) := by
  refine ⟨?_, ?_, ?_, ?_, ?_⟩ <;> decide

set_option maxRecDepth 40000 in
/-- C8: the header writer emits exactly 128 bytes — 116 bytes of ASCII
description padded with spaces, 8 zero bytes, the version word 0x0100 as
the little-endian pair 0x00 0x01, then 'I' (73) and 'M' (77) — on either
host endianness. -/
theorem write_mat_header_layout (hostLittle : Bool) :
    (write_mat_header hostLittle).length = 128 ∧
    (write_mat_header hostLittle).take 116 =
      header_text_bytes ++ List.replicate (116 - header_text_bytes.length) 32 ∧
    ((write_mat_header hostLittle).drop 116).take 8 = List.replicate 8 0 ∧
    ((write_mat_header hostLittle).drop 124).take 2 = [0x00, 0x01] ∧
    (write_mat_header hostLittle).drop 126 = [73, 77] := by
  cases hostLittle <;> decide

theorem write_dims_le_big_none (hostLittle : Bool) :
    ∀ l : List Nat, (∃ d ∈ l, INT32_MAX < d) → write_dims_le hostLittle l = none := by
  intro l
  induction l with
  | nil =>
    rintro ⟨d, hd, -⟩
    cases hd
  | cons a rest ih =>
    rintro ⟨d, hd, hgt⟩
    simp only [write_dims_le]
    rcases List.mem_cons.mp hd with rfl | hmem
    · rw [if_pos (by omega)]
    · by_cases ha : a > INT32_MAX
      · rw [if_pos ha]
      · rw [if_neg ha, ih ⟨d, hmem, hgt⟩]
        rfl

theorem write_numeric_matrix_big_dim_none (hostLittle : Bool)
    (name dims : List Nat) (rank : Nat) (data_type : MatDataType)
    (data : List Nat) (hex : ∃ d ∈ dims.take rank, INT32_MAX < d) :
    write_numeric_matrix hostLittle name dims rank data_type data = none := by
  have hdims := write_dims_le_big_none hostLittle (dims.take rank) hex
  simp only [write_numeric_matrix, hdims]
  repeat' split
  all_goals rfl

/-- C10: a dimension value exceeding INT32_MAX makes `write_numeric_matrix`
— and hence `save_3d_cube` and `save_wavelengths` — fail and return false
(dimensions are emitted as 32-bit integers). -/
theorem write_rejects_oversized_dims (hostLittle : Bool)
    (name dims : List Nat) (rank : Nat) (data_type : MatDataType)
    (data : List Nat) (cube : MatCube3D) (varName wl : List Nat) (count : Nat) :
    ((∃ d ∈ dims.take rank, INT32_MAX < d) →
      write_numeric_matrix hostLittle name dims rank data_type data = none) ∧
    ((∃ d ∈ [cube.dims.1, cube.dims.2.1, cube.dims.2.2], INT32_MAX < d) →
      save_3d_cube hostLittle varName cube = none) ∧
    (INT32_MAX < count →
      save_wavelengths hostLittle varName wl count = none) := by
  refine ⟨write_numeric_matrix_big_dim_none hostLittle name dims rank
    data_type data, ?_, ?_⟩
  · intro hex
    simp only [save_3d_cube]
    split
    · rfl
    next d hd =>
      split
      · rfl
      rw [write_numeric_matrix_big_dim_none hostLittle varName
        [cube.dims.1, cube.dims.2.1, cube.dims.2.2] 3 cube.data_type d
        (by simpa using hex)]
      rfl
  · intro hcount
    simp only [save_wavelengths]
    split
    · rfl
    exact write_numeric_matrix_big_dim_none hostLittle varName [count, 1] 2
      .float64 wl ⟨count, by simp, hcount⟩

/-- Witness for `write_rejects_oversized_dims` at dimension 2^31 =
INT32_MAX + 1. -/
theorem write_rejects_oversized_dims_witness :
    write_numeric_matrix true [65] [2 ^ 31, 1, 1] 3 .uint8
      (List.replicate 8 0) = none ∧
    save_3d_cube true [65]
      ⟨some (List.replicate 8 0), (2 ^ 31, 1, 1), 3, .uint8⟩ = none ∧
    save_wavelengths true [65] [] (2 ^ 31) = none :=
  ⟨(write_rejects_oversized_dims true [65] [2 ^ 31, 1, 1] 3 .uint8
      (List.replicate 8 0) ⟨some (List.replicate 8 0), (2 ^ 31, 1, 1), 3, .uint8⟩
      [65] [] (2 ^ 31)).1 ⟨2 ^ 31, by decide, by decide⟩,
   (write_rejects_oversized_dims true [65] [2 ^ 31, 1, 1] 3 .uint8
      (List.replicate 8 0) ⟨some (List.replicate 8 0), (2 ^ 31, 1, 1), 3, .uint8⟩
      [65] [] (2 ^ 31)).2.1 ⟨2 ^ 31, by decide, by decide⟩,
   (write_rejects_oversized_dims true [65] [2 ^ 31, 1, 1] 3 .uint8
      (List.replicate 8 0) ⟨some (List.replicate 8 0), (2 ^ 31, 1, 1), 3, .uint8⟩
      [65] [] (2 ^ 31)).2.2 (by decide)⟩
